import Mathlib

/-!
# joplin-mcp-go: the request translation and dispatch layer

A shallow embedding of `main.go`: the backend client (`NewJoplinClient`,
`makeRequest`), the tool executor (`executeTool`) and the RPC dispatcher
(`HandleRequest`), followed by theorems about them.

Modelling conventions.

* A Go `error` is its message (`err.Error()`), a `String`; a Go `(T, error)`
  result is an `Except String T`.
* Go byte slices holding text (`[]byte` response bodies) are `String`s.
* `encoding/json` is modelled on parsed values: a `json.RawMessage` is
  `none` when its bytes are not one valid JSON text (this covers the nil
  message of an absent field), and `some v` when they parse to `v`.
* `net/http` is a parameter, `World`: whether `http.NewRequest` accepts the
  URL, what `client.Do` returns, and what reading the response body gives.
* Functions that talk to the backend return, next to their Go result, the list
  of HTTP requests they handed to `client.Do`, in order.
-/

namespace JoplinMCP

/-! ## JSON values -/

/-- A parsed JSON text. A number literal without fraction and exponent is
`int`; any other number literal is `frac` and keeps its spelling. -/
inductive JSON where
  | null
  | bool (b : Bool)
  | int (n : Int)
  | frac (lit : String)
  | str (s : String)
  | arr (xs : List JSON)
  | obj (kvs : List (String × JSON))

/-- The type `json.RawMessage`: `none` for bytes that are not valid JSON. -/
abbrev RawMessage := Option JSON

/-! ## Data model (`main.go` lines 23-86) -/

structure Config where
  JoplinPort : Int
  JoplinToken : String
  MCPPort : Int

/-- The type `JoplinClient`; its `client` field is the `World` parameter. -/
structure JoplinClient where
  baseURL : String
  token : String
  deriving DecidableEq

structure MCPServer where
  joplin : JoplinClient
  config : Config

structure MCPRequest where
  JSONRPC : String
  ID : JSON
  Method : String
  Params : RawMessage

structure MCPError where
  Code : Int
  Message : String
  deriving DecidableEq

structure ListNotesParams where
  FolderID : String := ""
  Limit : Int := 0
  Page : Int := 0
  deriving DecidableEq

structure GetNoteParams where
  NoteID : String := ""
  deriving DecidableEq

structure CreateNoteParams where
  Title : String := ""
  Body : String := ""
  FolderID : String := ""
  deriving DecidableEq

structure UpdateNoteParams where
  NoteID : String := ""
  Title : String := ""
  Body : String := ""
  deriving DecidableEq

/-- The type `SearchParams`; `Typ` is the Go field `Type`. -/
structure SearchParams where
  Query : String := ""
  Typ : String := ""
  deriving DecidableEq

/-! ## Results placed in `MCPResponse.Result` -/

/-- One property of an input schema: name, JSON type, description, default. -/
structure SchemaProperty where
  name : String
  type : String
  description : String
  default : Option Int := none
  deriving DecidableEq

/-- One element of the `tools` slice of `tools/list`. -/
structure ToolDescriptor where
  name : String
  description : String
  properties : List SchemaProperty
  required : List String
  deriving DecidableEq

/-- One element of the `content` slice of a `tools/call` result. -/
structure ContentBlock where
  type : String
  text : String
  deriving DecidableEq

/-- The three shapes of value that `HandleRequest` stores in `resp.Result`:
the reply to the handshake (protocol version, server name and version, and the
keys of `capabilities`, each mapped to an empty object), the tool list, and the
content blocks of a tool call. -/
inductive ResultValue where
  | serverInfo (protocolVersion name version : String) (capabilities : List String)
  | tools (ts : List ToolDescriptor)
  | content (blocks : List ContentBlock)
  deriving DecidableEq

/-- The type `MCPResponse`; a nil `Result` or `Error` is `none`. -/
structure MCPResponse where
  JSONRPC : String
  ID : JSON
  Result : Option ResultValue
  Error : Option MCPError

/-! ## HTTP -/

/-- The `body interface{}` argument of `makeRequest`, when not nil: the two
Go values the executor passes. -/
inductive Body where
  | createNote (p : CreateNoteParams)
  | updateData (m : List (String × String))
  deriving DecidableEq

/-- The members of the JSON object `json.Marshal` writes for a body: struct
fields under their tags, `omitempty` ones left out when empty; map entries
under their keys. The members of an object are unordered: the list keeps the
order of insertion for a map, which `json.Marshal` writes sorted by key.
`json.Marshal` cannot fail on these two types. -/
def jsonMarshal : Body → List (String × String)
  | .createNote p =>
    [("title", p.Title), ("body", p.Body)] ++
      (if p.FolderID = "" then [] else [("folder_id", p.FolderID)])
  | .updateData m => m

/-- What `http.NewRequest` builds: method, URL, the JSON object sent as body
(`none` for a nil reader) and the `Content-Type` header when set. -/
structure HTTPRequest where
  method : String
  url : String
  body : Option (List (String × String))
  contentType : Option String
  deriving DecidableEq

/-- The part of `http.Response` the client reads: the status code and the
outcome of `io.ReadAll(resp.Body)`. -/
structure HTTPResponse where
  StatusCode : Int
  Body : Except String String

/-- The `net/http` side. `newRequest method url` is the error of
`http.NewRequest`, `none` when the request is built; `clientDo` is
`j.client.Do`, the round trip to the backend (timeout included). -/
structure World where
  newRequest : String → String → Option String
  clientDo : HTTPRequest → Except String HTTPResponse

/-! ## `strings.Contains` and `%d` -/

/-- Whether `sub` occurs in the character list as a contiguous block. -/
def containsChars (sub : List Char) : List Char → Bool
  | [] => sub.isEmpty
  | c :: cs => sub.isPrefixOf (c :: cs) || containsChars sub cs

/-- The function `strings.Contains(s, substr)`. -/
def stringsContains (s substr : String) : Bool :=
  containsChars substr.data s.data

/-- The verb `%d` of `fmt.Sprintf` on an `int`: decimal digits, with a leading
minus sign for a negative number. -/
def fmtInt (n : Int) : String := toString n

/-! ## `json.Unmarshal` into the structs of `main.go`

`json.Unmarshal(data, &v)` fails up front on bytes that are not valid JSON and
leaves `v` alone. On valid JSON it fills `v`: `null` has no effect; an object
is read member by member, in order, each key matched to the struct field whose
tag equals it up to case folding (unmatched keys are skipped); any other value
is a type error. A member whose value does not fit its field leaves the field
unchanged, records a type error, and decoding carries on. The error returned
is non-nil when any error was recorded. The functions below return the filled
struct together with `true` when the error is non-nil. -/

/-- Case folding of one character of a key. The fold classes that hold an
ASCII letter are its two cases, plus the Kelvin sign for `k` and the long s
for `s`; every struct tag in `main.go` is ASCII. -/
def foldRune (c : Char) : Char :=
  if c = Char.ofNat 0x212A then 'K'
  else if c = Char.ofNat 0x17F then 'S'
  else c.toUpper

def foldName (s : String) : String := String.mk (s.data.map foldRune)

/-- Whether object key `key` selects the struct field tagged `tag`. -/
def keyMatches (tag key : String) : Bool := foldName key == foldName tag

/-- Storing a JSON value in a Go `string` field: the new field value, and
whether a type error is recorded. -/
def storeString (old : String) : JSON → String × Bool
  | .str s => (s, false)
  | .null => (old, false)
  | _ => (old, true)

/-- Storing a JSON value in a Go `int` field (64 bits): only a number literal
that `strconv.ParseInt` reads within range fits. -/
def storeInt (old : Int) : JSON → Int × Bool
  | .int n => if -(2 : Int) ^ 63 ≤ n ∧ n < (2 : Int) ^ 63 then (n, false) else (old, true)
  | .null => (old, false)
  | _ => (old, true)

/-- The function `json.Unmarshal` into a struct, given how one member is
stored in it. -/
def unmarshalStruct {α : Type} (setField : α → String → JSON → α × Bool)
    (data : RawMessage) (v : α) : α × Bool :=
  match data with
  | none => (v, true)
  | some .null => (v, false)
  | some (.obj kvs) =>
    kvs.foldl (fun acc kv => ((setField acc.1 kv.1 kv.2).1, acc.2 || (setField acc.1 kv.1 kv.2).2))
      (v, false)
  | some _ => (v, true)

/-- The anonymous struct of `tools/call`: `name` and `arguments`. -/
structure CallParams where
  Name : String := ""
  Arguments : RawMessage := none

def CallParams.setField (p : CallParams) (key : String) (v : JSON) : CallParams × Bool :=
  if keyMatches "name" key then
    ({ p with Name := (storeString p.Name v).1 }, (storeString p.Name v).2)
  else if keyMatches "arguments" key then ({ p with Arguments := some v }, false)
  else (p, false)

def ListNotesParams.setField (p : ListNotesParams) (key : String) (v : JSON) :
    ListNotesParams × Bool :=
  if keyMatches "folder_id" key then
    ({ p with FolderID := (storeString p.FolderID v).1 }, (storeString p.FolderID v).2)
  else if keyMatches "limit" key then
    ({ p with Limit := (storeInt p.Limit v).1 }, (storeInt p.Limit v).2)
  else if keyMatches "page" key then
    ({ p with Page := (storeInt p.Page v).1 }, (storeInt p.Page v).2)
  else (p, false)

def GetNoteParams.setField (p : GetNoteParams) (key : String) (v : JSON) :
    GetNoteParams × Bool :=
  if keyMatches "note_id" key then
    ({ p with NoteID := (storeString p.NoteID v).1 }, (storeString p.NoteID v).2)
  else (p, false)

def CreateNoteParams.setField (p : CreateNoteParams) (key : String) (v : JSON) :
    CreateNoteParams × Bool :=
  if keyMatches "title" key then
    ({ p with Title := (storeString p.Title v).1 }, (storeString p.Title v).2)
  else if keyMatches "body" key then
    ({ p with Body := (storeString p.Body v).1 }, (storeString p.Body v).2)
  else if keyMatches "folder_id" key then
    ({ p with FolderID := (storeString p.FolderID v).1 }, (storeString p.FolderID v).2)
  else (p, false)

def UpdateNoteParams.setField (p : UpdateNoteParams) (key : String) (v : JSON) :
    UpdateNoteParams × Bool :=
  if keyMatches "note_id" key then
    ({ p with NoteID := (storeString p.NoteID v).1 }, (storeString p.NoteID v).2)
  else if keyMatches "title" key then
    ({ p with Title := (storeString p.Title v).1 }, (storeString p.Title v).2)
  else if keyMatches "body" key then
    ({ p with Body := (storeString p.Body v).1 }, (storeString p.Body v).2)
  else (p, false)

def SearchParams.setField (p : SearchParams) (key : String) (v : JSON) :
    SearchParams × Bool :=
  if keyMatches "query" key then
    ({ p with Query := (storeString p.Query v).1 }, (storeString p.Query v).2)
  else if keyMatches "type" key then
    ({ p with Typ := (storeString p.Typ v).1 }, (storeString p.Typ v).2)
  else (p, false)

/-! ## Backend client (`main.go` lines 88-140) -/

def NewJoplinClient (port : Int) (token : String) : JoplinClient :=
  { baseURL := "http://localhost:" ++ fmtInt port, token := token }

/-- Lines 97-104 of `makeRequest`: the URL the request is built for. -/
def requestURL (j : JoplinClient) (endpoint : String) : String :=
  if j.token ≠ "" then
    (j.baseURL ++ endpoint) ++
      ((if stringsContains (j.baseURL ++ endpoint) "?" then "&" else "?") ++ "token=" ++ j.token)
  else j.baseURL ++ endpoint

/-- Lines 106-122 of `makeRequest`: the request handed to `client.Do`, with the
marshalled body and, when there is a body, the JSON content type. -/
def builtRequest (j : JoplinClient) (method endpoint : String) (body : Option Body) :
    HTTPRequest :=
  { method := method, url := requestURL j endpoint, body := body.map jsonMarshal,
    contentType := if body.isSome then some "application/json" else none }

/-- The method `JoplinClient.makeRequest`. The second component lists the
requests passed to `client.Do`. The steps follow the source: the URL, the
request (an error of `http.NewRequest` returns before anything is sent), the
round trip, the reading of the body, the status check. The error return after
`json.Marshal` is left out, as it cannot be taken for the two body types. -/
def makeRequest (w : World) (j : JoplinClient) (method endpoint : String) (body : Option Body) :
    Except String String × List HTTPRequest :=
  match w.newRequest method (requestURL j endpoint) with
  | some err => (.error err, [])
  | none =>
    match w.clientDo (builtRequest j method endpoint body) with
    | .error err => (.error err, [builtRequest j method endpoint body])
    | .ok resp =>
      match resp.Body with
      | .error err => (.error err, [builtRequest j method endpoint body])
      | .ok respBody =>
        if resp.StatusCode ≥ 400 then
          (.error ("API error " ++ fmtInt resp.StatusCode ++ ": " ++ respBody),
            [builtRequest j method endpoint body])
        else (.ok respBody, [builtRequest j method endpoint body])

def NewMCPServer (config : Config) : MCPServer :=
  { joplin := NewJoplinClient config.JoplinPort config.JoplinToken, config := config }

/-! ## Tool executor (`main.go` lines 345-440) -/

/-- Lines 350-359: the endpoint of `list_notes`. -/
def listNotesEndpoint (params : ListNotesParams) : String :=
  (if params.FolderID ≠ "" then "/folders/" ++ params.FolderID ++ "/notes" else "/notes") ++
  (if params.Limit > 0 then "?limit=" ++ fmtInt params.Limit else "") ++
  (if params.Page > 1 then "&page=" ++ fmtInt params.Page else "")

/-- Lines 388-394: the map `updateData` of `update_note`. -/
def updateData (params : UpdateNoteParams) : List (String × String) :=
  (if params.Title ≠ "" then [("title", params.Title)] else []) ++
  (if params.Body ≠ "" then [("body", params.Body)] else [])

/-- Lines 413-416: the endpoint of `search_notes`. -/
def searchEndpoint (params : SearchParams) : String :=
  "/search?query=" ++ params.Query ++
  (if params.Typ ≠ "" then "&type=" ++ params.Typ else "")

/-- The method `MCPServer.executeTool`. Every `json.Unmarshal(args, &params)`
drops its error: only the filled struct is used. -/
def executeTool (w : World) (s : MCPServer) (name : String) (args : RawMessage) :
    Except String String × List HTTPRequest :=
  if name = "list_notes" then
    makeRequest w s.joplin "GET"
      (listNotesEndpoint (unmarshalStruct ListNotesParams.setField args {}).1) none
  else if name = "get_note" then
    makeRequest w s.joplin "GET"
      ("/notes/" ++ (unmarshalStruct GetNoteParams.setField args {}).1.NoteID ++
        "?fields=id,parent_id,title,body,markup_language") none
  else if name = "create_note" then
    makeRequest w s.joplin "POST" "/notes"
      (some (.createNote (unmarshalStruct CreateNoteParams.setField args {}).1))
  else if name = "update_note" then
    makeRequest w s.joplin "PUT"
      ("/notes/" ++ (unmarshalStruct UpdateNoteParams.setField args {}).1.NoteID)
      (some (.updateData (updateData (unmarshalStruct UpdateNoteParams.setField args {}).1)))
  else if name = "delete_note" then
    match makeRequest w s.joplin "DELETE"
      ("/notes/" ++ (unmarshalStruct GetNoteParams.setField args {}).1.NoteID) none with
    | (.error err, sent) => (.error err, sent)
    | (.ok _, sent) =>
      (.ok ("Note " ++ (unmarshalStruct GetNoteParams.setField args {}).1.NoteID ++
        " deleted successfully"), sent)
  else if name = "search_notes" then
    makeRequest w s.joplin "GET"
      (searchEndpoint (unmarshalStruct SearchParams.setField args {}).1) none
  else if name = "list_folders" then
    makeRequest w s.joplin "GET" "/folders" none
  else if name = "list_tags" then
    makeRequest w s.joplin "GET" "/tags" none
  else (.error ("unknown tool: " ++ name), [])

/-! ## RPC dispatcher (`main.go` lines 160-343) -/

/-- The `tools` slice of the `tools/list` result, lines 181-311. -/
def toolsList : List ToolDescriptor :=
  [ { name := "list_notes"
      description := "List all notes or notes in a specific folder"
      properties :=
        [ ⟨"folder_id", "string", "Optional folder ID to filter notes", none⟩,
          ⟨"limit", "number", "Number of notes per page (max 100)", some 50⟩,
          ⟨"page", "number", "Page number (starts at 1)", some 1⟩ ]
      required := [] },
    { name := "get_note"
      description := "Get a specific note by ID"
      properties := [ ⟨"note_id", "string", "The ID of the note to retrieve", none⟩ ]
      required := ["note_id"] },
    { name := "create_note"
      description := "Create a new note"
      properties :=
        [ ⟨"title", "string", "The title of the note", none⟩,
          ⟨"body", "string", "The body of the note in Markdown", none⟩,
          ⟨"folder_id", "string", "Optional folder ID to create the note in", none⟩ ]
      required := ["title", "body"] },
    { name := "update_note"
      description := "Update an existing note"
      properties :=
        [ ⟨"note_id", "string", "The ID of the note to update", none⟩,
          ⟨"title", "string", "New title for the note", none⟩,
          ⟨"body", "string", "New body for the note in Markdown", none⟩ ]
      required := ["note_id"] },
    { name := "delete_note"
      description := "Delete a note (moves to trash by default)"
      properties := [ ⟨"note_id", "string", "The ID of the note to delete", none⟩ ]
      required := ["note_id"] },
    { name := "search_notes"
      description := "Search for notes using Joplin's search syntax"
      properties :=
        [ ⟨"query", "string", "Search query", none⟩,
          ⟨"type", "string", "Type of item to search (note, folder, tag)", none⟩ ]
      required := ["query"] },
    { name := "list_folders"
      description := "List all notebooks/folders"
      properties := []
      required := [] },
    { name := "list_tags"
      description := "List all tags"
      properties := []
      required := [] } ]

/-- The names advertised by `tools/list`, in order. -/
def toolNames : List String := toolsList.map (fun t => t.name)

/-- The method `MCPServer.HandleRequest`, with the requests sent to the
backend while handling. -/
def HandleRequest (w : World) (s : MCPServer) (req : MCPRequest) :
    MCPResponse × List HTTPRequest :=
  if req.Method = "initialize" then
    ({ JSONRPC := "2.0", ID := req.ID,
       Result := some (.serverInfo "2024-11-05" "joplin-mcp-server" "1.0.0" ["tools"]),
       Error := none }, [])
  else if req.Method = "tools/list" then
    ({ JSONRPC := "2.0", ID := req.ID, Result := some (.tools toolsList), Error := none }, [])
  else if req.Method = "tools/call" then
    match unmarshalStruct CallParams.setField req.Params {} with
    | (_, true) =>
      ({ JSONRPC := "2.0", ID := req.ID, Result := none,
         Error := some ⟨-32602, "Invalid params"⟩ }, [])
    | (params, false) =>
      match executeTool w s params.Name params.Arguments with
      | (.error err, sent) =>
        ({ JSONRPC := "2.0", ID := req.ID, Result := none, Error := some ⟨-32603, err⟩ }, sent)
      | (.ok result, sent) =>
        ({ JSONRPC := "2.0", ID := req.ID,
           Result := some (.content [⟨"text", result⟩]), Error := none }, sent)
  else
    ({ JSONRPC := "2.0", ID := req.ID, Result := none,
       Error := some ⟨-32601, "Method not found"⟩ }, [])

/-! ## Sample servers and worlds -/

/-- A server on the default backend port, without token. -/
def sampleServer : MCPServer := NewMCPServer ⟨41184, "", 3000⟩

/-- A server on the default backend port, with a token. -/
def tokenServer : MCPServer := NewMCPServer ⟨41184, "secret", 3000⟩

/-- A world in which every request is built and the backend answers each one
with the given status and body. -/
def backendAnswering (status : Int) (body : String) : World :=
  { newRequest := fun _ _ => none, clientDo := fun _ => .ok ⟨status, .ok body⟩ }

/-- Whether a string holds an ASCII control character (below 0x20, or 0x7F). -/
def hasControlChar (s : String) : Bool :=
  s.data.any (fun c => decide (c.toNat < 0x20) || decide (c.toNat = 0x7F))

/-- A world whose `http.NewRequest` refuses a URL holding an ASCII control
character, which is the first check `url.Parse` makes on the URL it is given;
requests that are built are answered with the given status and body. -/
def parsingWorld (status : Int) (body : String) : World :=
  { newRequest := fun _ url =>
      if hasControlChar url then some "net/url: invalid control character in URL" else none,
    clientDo := fun _ => .ok ⟨status, .ok body⟩ }

/-! # Theorems

## Strings -/

/-- The function `containsChars` decides the infix relation. -/
theorem containsChars_iff (sub l : List Char) : containsChars sub l = true ↔ sub <:+: l := by
  induction l with
  | nil => cases sub <;> simp [containsChars]
  | cons c cs ih =>
    simp only [containsChars, Bool.or_eq_true, ih, List.isPrefixOf_iff_prefix]
    exact List.infix_cons_iff.symm

theorem containsChars_singleton (c : Char) (l : List Char) :
    containsChars [c] l = true ↔ c ∈ l := by
  rw [containsChars_iff]
  constructor
  · intro h
    exact h.subset (List.mem_singleton_self c)
  · intro h
    obtain ⟨s, t, rfl⟩ := List.append_of_mem h
    exact ⟨s, t, by simp⟩

theorem stringsContains_append_mid (a b c : String) :
    stringsContains (a ++ b ++ c) b = true := by
  unfold stringsContains
  rw [containsChars_iff]
  exact ⟨a.data, c.data, by simp [String.data_append]⟩

theorem digitChar_ne_question (n : Nat) (h : n < 10) : Nat.digitChar n ≠ '?' := by
  interval_cases n <;> decide

theorem toDigitsCore_no_question (fuel : Nat) :
    ∀ (n : Nat) (ds : List Char), '?' ∉ ds → '?' ∉ Nat.toDigitsCore 10 fuel n ds := by
  induction fuel with
  | zero => intro n ds h; simpa [Nat.toDigitsCore] using h
  | succ f ih =>
    intro n ds h
    have hd : '?' ∉ Nat.digitChar (n % 10) :: ds := by
      intro hm
      rcases List.mem_cons.mp hm with h1 | h1
      · exact digitChar_ne_question (n % 10) (Nat.mod_lt _ (by decide)) h1.symm
      · exact h h1
    simp only [Nat.toDigitsCore]
    split_ifs
    · exact hd
    · exact ih _ _ hd

theorem natRepr_no_question (n : Nat) : '?' ∉ (Nat.repr n).data := by
  simp only [Nat.repr, Nat.toDigits, List.asString]
  exact toDigitsCore_no_question _ _ _ (by simp)

theorem fmtInt_no_question (n : Int) : '?' ∉ (fmtInt n).data := by
  unfold fmtInt
  cases n with
  | ofNat m => exact natRepr_no_question m
  | negSucc m =>
    show '?' ∉ ("-" ++ Nat.repr (m + 1)).data
    rw [String.data_append]
    intro h
    rcases List.mem_append.mp h with h1 | h1
    · revert h1; decide
    · exact natRepr_no_question _ h1

theorem stringsContains_question (s : String) :
    stringsContains s "?" = true ↔ '?' ∈ s.data := by
  unfold stringsContains
  exact containsChars_singleton '?' s.data

theorem stringsContains_base (port : Int) (endpoint : String) :
    stringsContains ("http://localhost:" ++ fmtInt port ++ endpoint) "?" =
      stringsContains endpoint "?" := by
  rw [Bool.eq_iff_iff, stringsContains_question, stringsContains_question]
  simp only [String.data_append, List.mem_append]
  constructor
  · rintro ((h | h) | h)
    · exact absurd h (by decide)
    · exact absurd h (fmtInt_no_question port)
    · exact h
  · intro h; exact Or.inr h

/-- The `tools/call` branch of `HandleRequest`. -/
theorem HandleRequest_call (w : World) (s : MCPServer) (req : MCPRequest)
    (h : req.Method = "tools/call") :
    HandleRequest w s req =
      match unmarshalStruct CallParams.setField req.Params {} with
      | (_, true) =>
        ({ JSONRPC := "2.0", ID := req.ID, Result := none,
           Error := some ⟨-32602, "Invalid params"⟩ }, [])
      | (params, false) =>
        match executeTool w s params.Name params.Arguments with
        | (.error err, sent) =>
          ({ JSONRPC := "2.0", ID := req.ID, Result := none, Error := some ⟨-32603, err⟩ }, sent)
        | (.ok result, sent) =>
          ({ JSONRPC := "2.0", ID := req.ID,
             Result := some (.content [⟨"text", result⟩]), Error := none }, sent) := by
  unfold HandleRequest
  rw [if_neg (by rw [h]; decide), if_neg (by rw [h]; decide), if_pos h]

theorem HandleRequest_call_invalid (w : World) (s : MCPServer) (req : MCPRequest)
    (h : req.Method = "tools/call")
    (hd : (unmarshalStruct CallParams.setField req.Params {}).2 = true) :
    HandleRequest w s req =
      ({ JSONRPC := "2.0", ID := req.ID, Result := none,
         Error := some ⟨-32602, "Invalid params"⟩ }, []) := by
  rw [HandleRequest_call w s req h]
  split
  · rfl
  · next hp => rw [hp] at hd; cases hd

theorem HandleRequest_call_error (w : World) (s : MCPServer) (req : MCPRequest)
    (h : req.Method = "tools/call")
    (hd : (unmarshalStruct CallParams.setField req.Params {}).2 = false)
    (err : String) (sent : List HTTPRequest)
    (he : executeTool w s (unmarshalStruct CallParams.setField req.Params {}).1.Name
      (unmarshalStruct CallParams.setField req.Params {}).1.Arguments = (.error err, sent)) :
    HandleRequest w s req =
      ({ JSONRPC := "2.0", ID := req.ID, Result := none, Error := some ⟨-32603, err⟩ }, sent) := by
  rw [HandleRequest_call w s req h]
  split
  · next hp => rw [hp] at hd; cases hd
  · next hp => rw [hp] at he; simp only at he; rw [he]

theorem HandleRequest_call_ok (w : World) (s : MCPServer) (req : MCPRequest)
    (h : req.Method = "tools/call")
    (hd : (unmarshalStruct CallParams.setField req.Params {}).2 = false)
    (result : String) (sent : List HTTPRequest)
    (he : executeTool w s (unmarshalStruct CallParams.setField req.Params {}).1.Name
      (unmarshalStruct CallParams.setField req.Params {}).1.Arguments = (.ok result, sent)) :
    HandleRequest w s req =
      ({ JSONRPC := "2.0", ID := req.ID,
         Result := some (.content [⟨"text", result⟩]), Error := none }, sent) := by
  rw [HandleRequest_call w s req h]
  split
  · next hp => rw [hp] at hd; cases hd
  · next hp => rw [hp] at he; simp only at he; rw [he]

/-- In a `tools/call` response the error code, when there is one, is -32602 or -32603. -/
theorem HandleRequest_call_codes (w : World) (s : MCPServer) (req : MCPRequest)
    (h : req.Method = "tools/call") (e : MCPError)
    (he : (HandleRequest w s req).1.Error = some e) :
    (e.Code = -32602 ∧ (unmarshalStruct CallParams.setField req.Params {}).2 = true) ∨
    (e.Code = -32603 ∧ (unmarshalStruct CallParams.setField req.Params {}).2 = false) := by
  cases hd : (unmarshalStruct CallParams.setField req.Params {}).2 with
  | true =>
    rw [HandleRequest_call_invalid w s req h hd] at he
    simp at he; subst he; exact Or.inl ⟨rfl, rfl⟩
  | false =>
    rcases hx : executeTool w s (unmarshalStruct CallParams.setField req.Params {}).1.Name
      (unmarshalStruct CallParams.setField req.Params {}).1.Arguments with ⟨r, sent⟩
    cases r with
    | error err =>
      rw [HandleRequest_call_error w s req h hd err sent hx] at he
      simp at he; subst he; exact Or.inr ⟨rfl, rfl⟩
    | ok result =>
      rw [HandleRequest_call_ok w s req h hd result sent hx] at he
      simp at he


/-- Claim C1: for every request, whatever its method, its params and the
backend, the response of `HandleRequest` carries the id of the request unchanged
(a null id included). The statement covers every branch of the dispatcher. -/
theorem HandleRequest_echoes_id (w : World) (s : MCPServer) (req : MCPRequest) :
    (HandleRequest w s req).1.ID = req.ID := by
  unfold HandleRequest
  split_ifs
  · rfl
  · rfl
  · split
    · rfl
    · split <;> rfl
  · rfl

/-- Claim C2: for every request and every backend, the response of
`HandleRequest` has exactly one of `Result` and `Error` set: either a result and
no error, or an error and no result. -/
theorem HandleRequest_result_xor_error (w : World) (s : MCPServer) (req : MCPRequest) :
    ((HandleRequest w s req).1.Result.isSome = true ∧ (HandleRequest w s req).1.Error.isNone = true) ∨
    ((HandleRequest w s req).1.Result.isNone = true ∧ (HandleRequest w s req).1.Error.isSome = true) := by
  unfold HandleRequest
  split_ifs
  · exact Or.inl ⟨rfl, rfl⟩
  · exact Or.inl ⟨rfl, rfl⟩
  · split
    · exact Or.inr ⟨rfl, rfl⟩
    · split
      · exact Or.inr ⟨rfl, rfl⟩
      · exact Or.inl ⟨rfl, rfl⟩
  · exact Or.inr ⟨rfl, rfl⟩

/-- Claim C10: for a method other than `initialize`, `tools/list` and
`tools/call`, `HandleRequest` returns the error of code -32601 with message
`Method not found`, no result, and sends nothing to the backend; and a response
whose error has code -32601 comes from such a method only. -/
theorem HandleRequest_method_not_found (w : World) (s : MCPServer) (req : MCPRequest) :
    (req.Method ≠ "initialize" → req.Method ≠ "tools/list" → req.Method ≠ "tools/call" →
      (HandleRequest w s req).1.Error = some ⟨-32601, "Method not found"⟩ ∧
      (HandleRequest w s req).1.Result = none ∧
      (HandleRequest w s req).2 = []) ∧
    (∀ e : MCPError, (HandleRequest w s req).1.Error = some e → e.Code = -32601 →
      req.Method ≠ "initialize" ∧ req.Method ≠ "tools/list" ∧ req.Method ≠ "tools/call") := by
  constructor
  · intro h1 h2 h3
    simp [HandleRequest, h1, h2, h3]
  · intro e he hc
    by_cases h1 : req.Method = "initialize"
    · simp [HandleRequest, h1] at he
    · by_cases h2 : req.Method = "tools/list"
      · simp [HandleRequest, h2] at he
      · by_cases h3 : req.Method = "tools/call"
        · exfalso
          rcases HandleRequest_call_codes w s req h3 e he with ⟨h4, _⟩ | ⟨h4, _⟩ <;>
            · rw [h4] at hc; revert hc; decide
        · exact ⟨h1, h2, h3⟩

/-- Claim C10 at the empty method, and at `resources/list`. -/
theorem HandleRequest_method_not_found_witness :
    ((HandleRequest (backendAnswering 200 "[]") sampleServer ⟨"2.0", .null, "", none⟩).1.Error
        = some ⟨-32601, "Method not found"⟩ ∧
      (HandleRequest (backendAnswering 200 "[]") sampleServer ⟨"2.0", .null, "", none⟩).1.Result
        = none ∧
      (HandleRequest (backendAnswering 200 "[]") sampleServer ⟨"2.0", .null, "", none⟩).2 = []) ∧
    ("resources/list" ≠ "initialize" ∧ "resources/list" ≠ "tools/list" ∧
      "resources/list" ≠ "tools/call") :=
  ⟨(HandleRequest_method_not_found (backendAnswering 200 "[]") sampleServer
      ⟨"2.0", .null, "", none⟩).1 (by decide) (by decide) (by decide),
   (HandleRequest_method_not_found (backendAnswering 200 "[]") sampleServer
      ⟨"2.0", .int 7, "resources/list", none⟩).2 ⟨-32601, "Method not found"⟩
      (by decide) (by decide)⟩

theorem makeRequest_sent (w : World) (j : JoplinClient) (method endpoint : String)
    (body : Option Body) :
    (makeRequest w j method endpoint body).2 =
      if (w.newRequest method (requestURL j endpoint)).isSome then []
      else [builtRequest j method endpoint body] := by
  unfold makeRequest
  cases hn : w.newRequest method (requestURL j endpoint) with
  | some err => rfl
  | none =>
    simp only [Option.isSome_none, Bool.false_eq_true, if_false]
    split
    · rfl
    · split
      · rfl
      · split_ifs <;> rfl

theorem makeRequest_rejected (w : World) (j : JoplinClient) (method endpoint : String)
    (body : Option Body) (err : String)
    (hn : w.newRequest method (requestURL j endpoint) = some err) :
    makeRequest w j method endpoint body = (.error err, []) := by
  unfold makeRequest
  rw [hn]

theorem makeRequest_answered (w : World) (j : JoplinClient) (method endpoint : String)
    (body : Option Body) (status : Int) (b : String)
    (hn : w.newRequest method (requestURL j endpoint) = none)
    (hd : w.clientDo (builtRequest j method endpoint body) = .ok ⟨status, .ok b⟩) :
    makeRequest w j method endpoint body =
      (if status ≥ 400 then .error ("API error " ++ fmtInt status ++ ": " ++ b) else .ok b,
        [builtRequest j method endpoint body]) := by
  unfold makeRequest
  rw [hn]
  simp only [hd]
  split_ifs <;> rfl

/-- When `makeRequest` sent the single request `r` and the backend answered it,
the outcome is decided by the status code. -/
theorem makeRequest_of_sent (w : World) (j : JoplinClient) (method endpoint : String)
    (body : Option Body) (r : HTTPRequest) (status : Int) (b : String)
    (hs : (makeRequest w j method endpoint body).2 = [r])
    (hd : w.clientDo r = .ok ⟨status, .ok b⟩) :
    (makeRequest w j method endpoint body).1 =
      if status ≥ 400 then .error ("API error " ++ fmtInt status ++ ": " ++ b) else .ok b := by
  rw [makeRequest_sent] at hs
  cases hn : w.newRequest method (requestURL j endpoint) with
  | some err => rw [hn] at hs; simp at hs
  | none =>
    rw [hn] at hs
    simp only [Option.isSome_none, Bool.false_eq_true, if_false, List.cons.injEq, and_true] at hs
    rw [← hs] at hd
    rw [makeRequest_answered w j method endpoint body status b hn hd]

/-- Claim C6: for every port, endpoint and token, the URL of `makeRequest` is
`http://localhost:<port>` followed by the endpoint when the token is empty, and
otherwise that followed by a separator, `token=` and the token, the separator
being `&` when the endpoint holds a `?` and `?` when it does not. Every request
`makeRequest` sends goes to that URL. -/
theorem makeRequest_url (w : World) (port : Int) (token method endpoint : String)
    (body : Option Body) :
    requestURL (NewJoplinClient port token) endpoint =
      (if token = "" then "http://localhost:" ++ fmtInt port ++ endpoint
       else "http://localhost:" ++ fmtInt port ++ endpoint ++
         (if stringsContains endpoint "?" then "&" else "?") ++ "token=" ++ token) ∧
    (makeRequest w (NewJoplinClient port token) method endpoint body).2.map (fun r => r.url) =
      (if (w.newRequest method (requestURL (NewJoplinClient port token) endpoint)).isSome then []
       else [requestURL (NewJoplinClient port token) endpoint]) := by
  constructor
  · unfold requestURL NewJoplinClient
    simp only [stringsContains_base]
    by_cases ht : token = ""
    · simp [ht]
    · simp [ht, String.append_assoc]
  · rw [makeRequest_sent]
    split_ifs <;> rfl

theorem mem_toolNames (name : String) :
    name ∈ toolNames ↔
      name = "list_notes" ∨ name = "get_note" ∨ name = "create_note" ∨ name = "update_note" ∨
      name = "delete_note" ∨ name = "search_notes" ∨ name = "list_folders" ∨
      name = "list_tags" := by
  simp [toolNames, toolsList]

theorem executeTool_unknown (w : World) (s : MCPServer) (name : String) (args : RawMessage)
    (h : name ∉ toolNames) :
    executeTool w s name args = (.error ("unknown tool: " ++ name), []) := by
  rw [mem_toolNames] at h
  simp only [not_or] at h
  obtain ⟨h1, h2, h3, h4, h5, h6, h7, h8⟩ := h
  simp [executeTool, h1, h2, h3, h4, h5, h6, h7, h8]

theorem executeTool_list_notes (w : World) (s : MCPServer) (args : RawMessage) :
    executeTool w s "list_notes" args =
      makeRequest w s.joplin "GET"
        (listNotesEndpoint (unmarshalStruct ListNotesParams.setField args {}).1) none := by
  simp [executeTool]

theorem executeTool_get_note (w : World) (s : MCPServer) (args : RawMessage) :
    executeTool w s "get_note" args =
      makeRequest w s.joplin "GET"
        ("/notes/" ++ (unmarshalStruct GetNoteParams.setField args {}).1.NoteID ++
          "?fields=id,parent_id,title,body,markup_language") none := by
  simp [executeTool]

theorem executeTool_create_note (w : World) (s : MCPServer) (args : RawMessage) :
    executeTool w s "create_note" args =
      makeRequest w s.joplin "POST" "/notes"
        (some (.createNote (unmarshalStruct CreateNoteParams.setField args {}).1)) := by
  simp [executeTool]

theorem executeTool_update_note (w : World) (s : MCPServer) (args : RawMessage) :
    executeTool w s "update_note" args =
      makeRequest w s.joplin "PUT"
        ("/notes/" ++ (unmarshalStruct UpdateNoteParams.setField args {}).1.NoteID)
        (some (.updateData (updateData (unmarshalStruct UpdateNoteParams.setField args {}).1))) := by
  simp [executeTool]

theorem executeTool_delete_note (w : World) (s : MCPServer) (args : RawMessage) :
    executeTool w s "delete_note" args =
      ((makeRequest w s.joplin "DELETE"
          ("/notes/" ++ (unmarshalStruct GetNoteParams.setField args {}).1.NoteID) none).1.map
        (fun _ => "Note " ++ (unmarshalStruct GetNoteParams.setField args {}).1.NoteID ++
          " deleted successfully"),
       (makeRequest w s.joplin "DELETE"
          ("/notes/" ++ (unmarshalStruct GetNoteParams.setField args {}).1.NoteID) none).2) := by
  simp only [executeTool, String.reduceEq, if_false, if_true]
  split
  · next h => rw [h]; rfl
  · next h => rw [h]; rfl

theorem executeTool_search_notes (w : World) (s : MCPServer) (args : RawMessage) :
    executeTool w s "search_notes" args =
      makeRequest w s.joplin "GET"
        (searchEndpoint (unmarshalStruct SearchParams.setField args {}).1) none := by
  simp [executeTool]

theorem executeTool_list_folders (w : World) (s : MCPServer) (args : RawMessage) :
    executeTool w s "list_folders" args = makeRequest w s.joplin "GET" "/folders" none := by
  simp [executeTool]

theorem executeTool_list_tags (w : World) (s : MCPServer) (args : RawMessage) :
    executeTool w s "list_tags" args = makeRequest w s.joplin "GET" "/tags" none := by
  simp [executeTool]

/-- A registered tool makes one call of `makeRequest`; its result is that of
the call, except that `delete_note` replaces a success by its confirmation. -/
theorem executeTool_registered (w : World) (s : MCPServer) (name : String) (args : RawMessage)
    (h : name ∈ toolNames) :
    ∃ (method endpoint : String) (body : Option Body),
      (executeTool w s name args).2 = (makeRequest w s.joplin method endpoint body).2 ∧
      (executeTool w s name args).1 =
        if name = "delete_note" then
          (makeRequest w s.joplin method endpoint body).1.map (fun _ =>
            "Note " ++ (unmarshalStruct GetNoteParams.setField args {}).1.NoteID ++
              " deleted successfully")
        else (makeRequest w s.joplin method endpoint body).1 := by
  rw [mem_toolNames] at h
  rcases h with rfl | rfl | rfl | rfl | rfl | rfl | rfl | rfl
  · exact ⟨_, _, _, by rw [executeTool_list_notes], by rw [executeTool_list_notes]; simp⟩
  · exact ⟨_, _, _, by rw [executeTool_get_note], by rw [executeTool_get_note]; simp⟩
  · exact ⟨_, _, _, by rw [executeTool_create_note], by rw [executeTool_create_note]; simp⟩
  · exact ⟨_, _, _, by rw [executeTool_update_note], by rw [executeTool_update_note]; simp⟩
  · exact ⟨_, _, _, by rw [executeTool_delete_note], by rw [executeTool_delete_note]; simp⟩
  · exact ⟨_, _, _, by rw [executeTool_search_notes], by rw [executeTool_search_notes]; simp⟩
  · exact ⟨_, _, _, by rw [executeTool_list_folders], by rw [executeTool_list_folders]; simp⟩
  · exact ⟨_, _, _, by rw [executeTool_list_tags], by rw [executeTool_list_tags]; simp⟩

theorem HandleRequest_call_decoded (w : World) (s : MCPServer) (req : MCPRequest)
    (h : req.Method = "tools/call")
    (hd : (unmarshalStruct CallParams.setField req.Params {}).2 = false) :
    HandleRequest w s req =
      (match (executeTool w s (unmarshalStruct CallParams.setField req.Params {}).1.Name
          (unmarshalStruct CallParams.setField req.Params {}).1.Arguments).1 with
        | .error err =>
          { JSONRPC := "2.0", ID := req.ID, Result := none, Error := some ⟨-32603, err⟩ }
        | .ok result =>
          { JSONRPC := "2.0", ID := req.ID,
            Result := some (.content [⟨"text", result⟩]), Error := none },
       (executeTool w s (unmarshalStruct CallParams.setField req.Params {}).1.Name
          (unmarshalStruct CallParams.setField req.Params {}).1.Arguments).2) := by
  rcases hx : executeTool w s (unmarshalStruct CallParams.setField req.Params {}).1.Name
    (unmarshalStruct CallParams.setField req.Params {}).1.Arguments with ⟨r, sent⟩
  cases r with
  | error err => rw [HandleRequest_call_error w s req h hd err sent hx]
  | ok result => rw [HandleRequest_call_ok w s req h hd result sent hx]

/-- The outcome of a registered tool whose single request the backend answered. -/
theorem executeTool_of_sent (w : World) (s : MCPServer) (name : String) (args : RawMessage)
    (h : name ∈ toolNames) (r : HTTPRequest) (status : Int) (b : String)
    (hs : (executeTool w s name args).2 = [r])
    (hd : w.clientDo r = .ok ⟨status, .ok b⟩) :
    (executeTool w s name args).1 =
      if status ≥ 400 then .error ("API error " ++ fmtInt status ++ ": " ++ b)
      else if name = "delete_note" then
        .ok ("Note " ++ (unmarshalStruct GetNoteParams.setField args {}).1.NoteID ++
          " deleted successfully")
      else .ok b := by
  obtain ⟨method, endpoint, body, h2, h1⟩ := executeTool_registered w s name args h
  rw [h2] at hs
  rw [h1, makeRequest_of_sent w s.joplin method endpoint body r status b hs hd]
  by_cases hst : status ≥ 400 <;> by_cases hn : name = "delete_note" <;>
    simp [hst, hn, Except.map]

/-- Claim C3, amended: for a name outside the eight advertised by `tools/list`,
`executeTool` sends nothing and fails with `unknown tool: ` followed by the
name. For one of the eight it makes one call of `makeRequest`: at most one
request is sent, exactly one when `http.NewRequest` accepts the URL, and none
when it refuses it, the tool then failing with the error of `http.NewRequest`. -/
theorem executeTool_requests (w : World) (s : MCPServer) (name : String) (args : RawMessage) :
    (name ∉ toolNames → executeTool w s name args = (.error ("unknown tool: " ++ name), [])) ∧
    (name ∈ toolNames →
      (executeTool w s name args).2.length ≤ 1 ∧
      ((∀ method url, w.newRequest method url = none) →
        (executeTool w s name args).2.length = 1) ∧
      ∃ (method endpoint : String) (body : Option Body),
        (w.newRequest method (requestURL s.joplin endpoint) = none →
          (executeTool w s name args).2 = [builtRequest s.joplin method endpoint body]) ∧
        (∀ err, w.newRequest method (requestURL s.joplin endpoint) = some err →
          executeTool w s name args = (.error err, []))) := by
  refine ⟨executeTool_unknown w s name args, fun h => ?_⟩
  obtain ⟨method, endpoint, body, h2, h1⟩ := executeTool_registered w s name args h
  refine ⟨?_, fun hall => ?_, method, endpoint, body, fun hn => ?_, fun err hn => ?_⟩
  · rw [h2, makeRequest_sent]; split_ifs <;> simp
  · rw [h2, makeRequest_sent, hall]; rfl
  · rw [h2, makeRequest_sent, hn]; rfl
  · rw [makeRequest_rejected w s.joplin method endpoint body err hn] at h1 h2
    apply Prod.ext
    · rw [h1]; split_ifs <;> rfl
    · rw [h2]

/-- Claim C3, amended, at an unknown name and at `list_tags`. -/
theorem executeTool_requests_witness :
    executeTool (backendAnswering 200 "[]") sampleServer "export_notes" none =
      (.error ("unknown tool: " ++ "export_notes"), []) ∧
    (executeTool (backendAnswering 200 "[]") sampleServer "list_tags" none).2.length = 1 :=
  ⟨(executeTool_requests (backendAnswering 200 "[]") sampleServer "export_notes" none).1
      (by decide),
   ((executeTool_requests (backendAnswering 200 "[]") sampleServer "list_tags" none).2
      (by decide)).2.1 (fun _ _ => rfl)⟩

/-- Claim C3 as stated fails: `get_note` is advertised, yet for a note id that
is a line feed the URL holds a control character, `http.NewRequest` refuses it
and no request is sent. -/
theorem registered_tool_without_request :
    "get_note" ∈ toolNames ∧
    (executeTool (parsingWorld 200 "ok") sampleServer "get_note"
      (some (.obj [("note_id", .str "\n")]))).2 = [] ∧
    (executeTool (parsingWorld 200 "ok") sampleServer "get_note"
      (some (.obj [("note_id", .str "\n")]))).2.length ≠ 1 := by
  decide

/-- Claim C4: an `update_note` call whose arguments decode to note id `N`,
title `T` and body `B` calls `makeRequest` with `PUT`, `/notes/N` and the map
`updateData`; the request sent, if any, is that one, with a JSON body. The map
has the member `title` (with value `T`) exactly when `T` is non-empty, the
member `body` (with value `B`) exactly when `B` is non-empty, no other member
and no repeated key: only a title gives exactly the title member, only a body
exactly the body member, neither gives the empty object. -/
theorem update_note_request (w : World) (s : MCPServer) (args : RawMessage) (N T B : String)
    (h : (unmarshalStruct UpdateNoteParams.setField args {}).1 = ⟨N, T, B⟩) :
    executeTool w s "update_note" args =
      makeRequest w s.joplin "PUT" ("/notes/" ++ N)
        (some (.updateData (updateData ⟨N, T, B⟩))) ∧
    (executeTool w s "update_note" args).2 =
      (if (w.newRequest "PUT" (requestURL s.joplin ("/notes/" ++ N))).isSome then []
       else [⟨"PUT", requestURL s.joplin ("/notes/" ++ N), some (updateData ⟨N, T, B⟩),
              some "application/json"⟩]) ∧
    (∀ k v, (k, v) ∈ updateData ⟨N, T, B⟩ ↔
      (k = "title" ∧ v = T ∧ T ≠ "") ∨ (k = "body" ∧ v = B ∧ B ≠ "")) ∧
    ((updateData ⟨N, T, B⟩).map Prod.fst).Nodup ∧
    (T ≠ "" → B = "" → updateData ⟨N, T, B⟩ = [("title", T)]) ∧
    (T = "" → B ≠ "" → updateData ⟨N, T, B⟩ = [("body", B)]) ∧
    (T = "" → B = "" → updateData ⟨N, T, B⟩ = []) := by
  refine ⟨?_, ?_, ?_, ?_, ?_, ?_, ?_⟩
  · rw [executeTool_update_note, h]
  · rw [executeTool_update_note, h, makeRequest_sent]
    rfl
  · intro k v
    by_cases hT : T = "" <;> by_cases hB : B = "" <;>
      simp only [updateData, hT, hB, ne_eq, not_true_eq_false, not_false_eq_true, if_true,
        if_false, List.append_nil, List.nil_append, List.not_mem_nil, and_false, or_false,
        false_or, and_true, List.mem_singleton, List.mem_append, List.mem_cons, Prod.mk.injEq,
        List.singleton_append]
  · by_cases hT : T = "" <;> by_cases hB : B = "" <;> simp [updateData, hT, hB]
  · intro hT hB; simp [updateData, hT, hB]
  · intro hT hB; simp [updateData, hT, hB]
  · intro hT hB; simp [updateData, hT, hB]

/-- Claim C4 at an `update_note` call that supplies a title only. -/
theorem update_note_request_witness :
    executeTool (backendAnswering 200 "ok") tokenServer "update_note"
        (some (.obj [("note_id", .str "n1"), ("title", .str "Groceries")])) =
      makeRequest (backendAnswering 200 "ok") tokenServer.joplin "PUT" ("/notes/" ++ "n1")
        (some (.updateData (updateData ⟨"n1", "Groceries", ""⟩))) ∧
    updateData ⟨"n1", "Groceries", ""⟩ = [("title", "Groceries")] :=
  ⟨(update_note_request (backendAnswering 200 "ok") tokenServer
      (some (.obj [("note_id", .str "n1"), ("title", .str "Groceries")])) "n1" "Groceries" ""
      (by decide)).1,
   (update_note_request (backendAnswering 200 "ok") tokenServer
      (some (.obj [("note_id", .str "n1"), ("title", .str "Groceries")])) "n1" "Groceries" ""
      (by decide)).2.2.2.2.1 (by decide) rfl⟩

/-- Claim C5 fails at `list_notes` with arguments that hold `page` 2 and no
limit: the arguments decode without error, and the endpoint built is
`/notes&page=2`, which has no `?` before its first parameter. The request goes
to that path, and with a token configured the token is appended after a `?`. -/
theorem list_notes_page_without_limit :
    (unmarshalStruct ListNotesParams.setField (some (.obj [("page", .int 2)])) {}) =
      (⟨"", 0, 2⟩, false) ∧
    listNotesEndpoint ⟨"", 0, 2⟩ = "/notes&page=2" ∧
    stringsContains (listNotesEndpoint ⟨"", 0, 2⟩) "?" = false ∧
    listNotesEndpoint ⟨"", 0, 2⟩ ≠ "/notes?page=2" ∧
    (executeTool (backendAnswering 200 "[]") sampleServer "list_notes"
        (some (.obj [("page", .int 2)]))).2 =
      [⟨"GET", "http://localhost:41184/notes&page=2", none, none⟩] ∧
    (executeTool (backendAnswering 200 "[]") tokenServer "list_notes"
        (some (.obj [("page", .int 2)]))).2 =
      [⟨"GET", "http://localhost:41184/notes&page=2?token=secret", none, none⟩] := by
  decide

/-- Claim C7: when the backend answers the request with status `status` and body
`b`, `makeRequest` fails with `API error <status>: <b>` if the status is at least
400 and returns `b` unchanged otherwise. For a `tools/call` of a registered tool
whose request is so answered with a status of at least 400, `HandleRequest`
returns no result and an error of code -32603 whose message is that text, which
holds both the decimal status and the body. -/
theorem backend_status_error (w : World) (s : MCPServer) (req : MCPRequest) (r : HTTPRequest)
    (j : JoplinClient) (method endpoint : String) (body : Option Body)
    (status : Int) (b : String) :
    (w.newRequest method (requestURL j endpoint) = none →
      w.clientDo (builtRequest j method endpoint body) = .ok ⟨status, .ok b⟩ →
      (status ≥ 400 → (makeRequest w j method endpoint body).1 =
        .error ("API error " ++ fmtInt status ++ ": " ++ b)) ∧
      (status < 400 → (makeRequest w j method endpoint body).1 = .ok b)) ∧
    (req.Method = "tools/call" →
      (unmarshalStruct CallParams.setField req.Params {}).2 = false →
      (unmarshalStruct CallParams.setField req.Params {}).1.Name ∈ toolNames →
      (HandleRequest w s req).2 = [r] →
      w.clientDo r = .ok ⟨status, .ok b⟩ →
      status ≥ 400 →
      (HandleRequest w s req).1.Result = none ∧
      (HandleRequest w s req).1.Error =
        some ⟨-32603, "API error " ++ fmtInt status ++ ": " ++ b⟩ ∧
      stringsContains ("API error " ++ fmtInt status ++ ": " ++ b) (fmtInt status) = true ∧
      stringsContains ("API error " ++ fmtInt status ++ ": " ++ b) b = true) := by
  constructor
  · intro hn hd
    rw [makeRequest_answered w j method endpoint body status b hn hd]
    constructor
    · intro hs; simp [hs]
    · intro hs; simp [not_le.mpr hs]
  · intro hm hdec hname hsent hd hs
    rw [HandleRequest_call_decoded w s req hm hdec] at hsent ⊢
    simp only at hsent
    rw [executeTool_of_sent w s _ _ hname r status b hsent hd]
    simp only [hs, if_true]
    refine ⟨trivial, trivial, ?_, ?_⟩
    · have := stringsContains_append_mid "API error " (fmtInt status) (": " ++ b)
      rwa [← String.append_assoc] at this
    · have := stringsContains_append_mid ("API error " ++ fmtInt status ++ ": ") b ""
      simpa using this

/-- Claim C7 at `list_folders` against a backend answering 404 `not found`, and
`makeRequest` against one answering 200. -/
theorem backend_status_error_witness :
    (makeRequest (backendAnswering 404 "not found") sampleServer.joplin "GET" "/folders" none).1 =
      .error ("API error " ++ fmtInt 404 ++ ": " ++ "not found") ∧
    (makeRequest (backendAnswering 200 "[]") sampleServer.joplin "GET" "/folders" none).1 =
      .ok "[]" ∧
    ((HandleRequest (backendAnswering 404 "not found") sampleServer
        ⟨"2.0", .int 42, "tools/call", some (.obj [("name", .str "list_folders")])⟩).1.Result
        = none ∧
      (HandleRequest (backendAnswering 404 "not found") sampleServer
        ⟨"2.0", .int 42, "tools/call", some (.obj [("name", .str "list_folders")])⟩).1.Error
        = some ⟨-32603, "API error " ++ fmtInt 404 ++ ": " ++ "not found"⟩ ∧
      stringsContains ("API error " ++ fmtInt 404 ++ ": " ++ "not found") (fmtInt 404) = true ∧
      stringsContains ("API error " ++ fmtInt 404 ++ ": " ++ "not found") "not found" = true) :=
  ⟨((backend_status_error (backendAnswering 404 "not found") sampleServer
      ⟨"2.0", .int 42, "tools/call", some (.obj [("name", .str "list_folders")])⟩
      ⟨"GET", "http://localhost:41184/folders", none, none⟩
      sampleServer.joplin "GET" "/folders" none 404 "not found").1 rfl rfl).1 (by decide),
   ((backend_status_error (backendAnswering 200 "[]") sampleServer
      ⟨"2.0", .int 42, "tools/call", some (.obj [("name", .str "list_folders")])⟩
      ⟨"GET", "http://localhost:41184/folders", none, none⟩
      sampleServer.joplin "GET" "/folders" none 200 "[]").1 rfl rfl).2 (by decide),
   (backend_status_error (backendAnswering 404 "not found") sampleServer
      ⟨"2.0", .int 42, "tools/call", some (.obj [("name", .str "list_folders")])⟩
      ⟨"GET", "http://localhost:41184/folders", none, none⟩
      sampleServer.joplin "GET" "/folders" none 404 "not found").2
      (by decide) (by decide) (by decide) (by decide) rfl (by decide)⟩

/-- Claim C8 as stated fails: for `list_notes` with a limit that is the string
`ten`, and for `get_note` with arguments that are an array, the params decode,
the arguments do not, and the response is a result, not an error. -/
theorem bad_arguments_not_rejected :
    (unmarshalStruct CallParams.setField
      (some (.obj [("name", .str "list_notes"), ("arguments", .obj [("limit", .str "ten")])]))
      {}).2 = false ∧
    (unmarshalStruct ListNotesParams.setField (some (.obj [("limit", .str "ten")])) {}) =
      ({}, true) ∧
    (HandleRequest (backendAnswering 200 "[]") sampleServer
      ⟨"2.0", .int 1, "tools/call",
        some (.obj [("name", .str "list_notes"),
          ("arguments", .obj [("limit", .str "ten")])])⟩).1.Error = none ∧
    (HandleRequest (backendAnswering 200 "[]") sampleServer
      ⟨"2.0", .int 1, "tools/call",
        some (.obj [("name", .str "list_notes"),
          ("arguments", .obj [("limit", .str "ten")])])⟩).1.Result =
      some (.content [⟨"text", "[]"⟩]) ∧
    (unmarshalStruct GetNoteParams.setField (some (.arr [.str "n1"])) {}) = ({}, true) ∧
    (HandleRequest (backendAnswering 200 "ok") sampleServer
      ⟨"2.0", .int 2, "tools/call",
        some (.obj [("name", .str "get_note"), ("arguments", .arr [.str "n1"])])⟩).1.Error
      = none := by
  decide

/-- Claim C8, amended: a `tools/call` request whose params fail to decode as
`{name, arguments}` gets the invalid-params error (code -32602) and sends
nothing. When the params decode, whatever the arguments are, an error in the
response has code -32603: arguments that fail to decode into the parameter type
of the tool are not rejected, the decoding error being dropped. -/
theorem invalid_params_only_for_params (w : World) (s : MCPServer) (req : MCPRequest)
    (h : req.Method = "tools/call") :
    ((unmarshalStruct CallParams.setField req.Params {}).2 = true →
      HandleRequest w s req =
        ({ JSONRPC := "2.0", ID := req.ID, Result := none,
           Error := some ⟨-32602, "Invalid params"⟩ }, [])) ∧
    ((unmarshalStruct CallParams.setField req.Params {}).2 = false →
      ∀ e : MCPError, (HandleRequest w s req).1.Error = some e → e.Code = -32603) := by
  constructor
  · exact HandleRequest_call_invalid w s req h
  · intro hd e he
    rcases HandleRequest_call_codes w s req h e he with ⟨_, h2⟩ | ⟨h1, _⟩
    · rw [hd] at h2; cases h2
    · exact h1

/-- Claim C8, amended, at params that are an array and at params that are
`null`. -/
theorem invalid_params_only_for_params_witness :
    HandleRequest (backendAnswering 200 "[]") sampleServer
        ⟨"2.0", .int 3, "tools/call", some (.arr [.str "list_notes"])⟩ =
      ({ JSONRPC := "2.0", ID := .int 3, Result := none,
         Error := some ⟨-32602, "Invalid params"⟩ }, []) ∧
    (⟨-32603, "unknown tool: "⟩ : MCPError).Code = -32603 :=
  ⟨(invalid_params_only_for_params (backendAnswering 200 "[]") sampleServer
      ⟨"2.0", .int 3, "tools/call", some (.arr [.str "list_notes"])⟩ rfl).1 (by decide),
   (invalid_params_only_for_params (backendAnswering 200 "[]") sampleServer
      ⟨"2.0", .int 3, "tools/call", some .null⟩ rfl).2 (by decide)
      ⟨-32603, "unknown tool: "⟩ (by decide)⟩

/-- Claim C9: for a `tools/call` of a registered tool whose request the backend
answers with a status below 400 and body `b`, `HandleRequest` returns no error
and a result whose content is one block of type `text`; its text is `b` for
every tool but `delete_note`, for which it is `Note N deleted successfully`, `N`
being the note id of the arguments, whatever `b` is. -/
theorem tool_result_text (w : World) (s : MCPServer) (req : MCPRequest) (r : HTTPRequest)
    (status : Int) (b : String)
    (hm : req.Method = "tools/call")
    (hdec : (unmarshalStruct CallParams.setField req.Params {}).2 = false)
    (hname : (unmarshalStruct CallParams.setField req.Params {}).1.Name ∈ toolNames)
    (hsent : (HandleRequest w s req).2 = [r])
    (hd : w.clientDo r = .ok ⟨status, .ok b⟩)
    (hs : status < 400) :
    (HandleRequest w s req).1.Error = none ∧
    (HandleRequest w s req).1.Result =
      some (.content [⟨"text",
        if (unmarshalStruct CallParams.setField req.Params {}).1.Name = "delete_note" then
          "Note " ++ (unmarshalStruct GetNoteParams.setField
            (unmarshalStruct CallParams.setField req.Params {}).1.Arguments {}).1.NoteID ++
            " deleted successfully"
        else b⟩]) := by
  rw [HandleRequest_call_decoded w s req hm hdec] at hsent ⊢
  simp only at hsent
  rw [executeTool_of_sent w s _ _ hname r status b hsent hd]
  simp only [ge_iff_le, not_le.mpr hs, if_false]
  split_ifs <;> exact ⟨rfl, rfl⟩

/-- Claim C9 at `list_folders` with id 42, and at `delete_note`. -/
theorem tool_result_text_witness :
    ((HandleRequest (backendAnswering 200 "[folders]") sampleServer
        ⟨"2.0", .int 42, "tools/call", some (.obj [("name", .str "list_folders")])⟩).1.Error
        = none ∧
      (HandleRequest (backendAnswering 200 "[folders]") sampleServer
        ⟨"2.0", .int 42, "tools/call", some (.obj [("name", .str "list_folders")])⟩).1.Result
        = some (.content [⟨"text", "[folders]"⟩])) ∧
    (HandleRequest (backendAnswering 204 "") sampleServer
        ⟨"2.0", .str "a", "tools/call", some (.obj [("name", .str "delete_note"),
          ("arguments", .obj [("note_id", .str "n1")])])⟩).1.Result
        = some (.content [⟨"text", "Note n1 deleted successfully"⟩]) :=
  ⟨tool_result_text (backendAnswering 200 "[folders]") sampleServer
      ⟨"2.0", .int 42, "tools/call", some (.obj [("name", .str "list_folders")])⟩
      ⟨"GET", "http://localhost:41184/folders", none, none⟩ 200 "[folders]"
      rfl (by decide) (by decide) (by decide) rfl (by decide),
   (tool_result_text (backendAnswering 204 "") sampleServer
      ⟨"2.0", .str "a", "tools/call", some (.obj [("name", .str "delete_note"),
        ("arguments", .obj [("note_id", .str "n1")])])⟩
      ⟨"DELETE", "http://localhost:41184/notes/n1", none, none⟩ 204 ""
      rfl (by decide) (by decide) (by decide) rfl (by decide)).2⟩

/-- Every note id, title and body is the decoding of some arguments. -/
theorem unmarshal_update_args (N T B : String) :
    (unmarshalStruct UpdateNoteParams.setField
      (some (.obj [("note_id", .str N), ("title", .str T), ("body", .str B)])) {}) =
      (⟨N, T, B⟩, false) := by
  have h1 : keyMatches "note_id" "note_id" = true := by decide
  have h2 : keyMatches "note_id" "title" = false := by decide
  have h3 : keyMatches "title" "title" = true := by decide
  have h4 : keyMatches "note_id" "body" = false := by decide
  have h5 : keyMatches "title" "body" = false := by decide
  have h6 : keyMatches "body" "body" = true := by decide
  simp [unmarshalStruct, UpdateNoteParams.setField, storeString, h1, h2, h3, h4, h5, h6]

end JoplinMCP
